import Mathlib

set_option maxHeartbeats 1000000

/-!
Verification development for the medical-intake voice bot.

The first part embeds the intake state machine of `medical_intake.py`
(`MedicalIntakeProcessor`): the patient record is a structure of optional
fields (a field is `none` exactly when the corresponding dictionary key is
absent), each step handler is a function from its structured arguments and
the current state to the next state, and the set of callables exposed to
the language model is the `tools` list carried in the state.  Handlers
whose body can raise a `KeyError` on the patient record (`collect_phone`,
`collect_email`, which index the contact entry of `patient_info` without a default)
return `Except`; the remaining handlers cannot raise given well-typed
arguments and return the new state directly.

The second part embeds the notification sender
(`send_appointment_email`): the environment is summarised by whether the
SendGrid API key is a truthy string and whether the client call succeeds,
and the outcome records the send attempts made (the HTML bodies handed to
the client) together with the logged event.

The third part embeds the call bridge of `bot_runner.py`: the startup
environment-variable check and the `/twilio_start_bot` endpoint, whose
external effects (room provisioning, process spawn, early-exit poll) are
summarised by boolean outcomes in a `BridgeEnv`.
-/

/-- Sub-dictionary stored under the insurance key of `patient_info`. -/
structure Insurance where
  payer_name : String
  payer_id : String
deriving DecidableEq, Repr

/-- Sub-dictionary stored under the referral key of `patient_info`. -/
structure Referral where
  has_referral : Bool
  referring_physician : String
deriving DecidableEq, Repr

/-- Sub-dictionary stored under the contact key of `patient_info`; each key may be absent. -/
structure Contact where
  address : Option String := none
  phone : Option String := none
  email : Option String := none
deriving DecidableEq, Repr

/-- Sub-dictionary stored under the appointment key of `patient_info`. -/
structure Appointment where
  doctor : String
  date : String
  time : String
deriving DecidableEq, Repr

/-- The mutable `patient_info` dictionary: a field is `none` while its key
is absent. -/
structure PatientInfo where
  first_name : Option String := none
  last_name : Option String := none
  birthday : Option String := none
  insurance : Option Insurance := none
  referral : Option Referral := none
  chief_complaint : Option String := none
  contact : Option Contact := none
  appointment : Option Appointment := none
deriving DecidableEq, Repr

/-- Python truthiness of a string used with `or`: `x or d` is `d` when `x`
is the empty string. -/
def pyOr (s d : String) : String := if s = "" then d else s

/-- Python truthiness of `os.getenv(...)`: falsy when the variable is
unset or set to the empty string. -/
def envTruthy : Option String → Bool
  | none => false
  | some s => !(s == "")

/-- Environment summary for the email path: the SendGrid API key (if set)
and whether the client `send` call succeeds. -/
structure Env where
  sendgridApiKey : Option String
  sendOk : Bool

/-- What the `except` machinery of `send_appointment_email` records. -/
inductive EmailEvent
  | skippedNoApiKey
  | sent (html : String)
  | failedCaught (html : Option String)
deriving DecidableEq, Repr

/-- The HTML body of the summary email, from the f-string in
`send_appointment_email`; `none` when a required record key is absent (the
`KeyError` of the dictionary lookups while the `Mail` is built). -/
def buildEmailHtml (info : PatientInfo) : Option String := do
  let fn ← info.first_name
  let ln ← info.last_name
  let patient_name := fn ++ " " ++ ln
  let appt ← info.appointment
  let bday ← info.birthday
  let ins ← info.insurance
  let ref ← info.referral
  let complaint ← info.chief_complaint
  let contact ← info.contact
  let addr ← contact.address
  let phone ← contact.phone
  let email ← contact.email
  return "\n                <h2>New Appointment Scheduled</h2>\n                <p><strong>Patient:</strong> "
    ++ patient_name
    ++ "</p>\n                <p><strong>Date of Birth:</strong> "
    ++ bday
    ++ "</p>\n                <p><strong>Insurance:</strong> "
    ++ ins.payer_name
    ++ " (ID: "
    ++ ins.payer_id
    ++ ")</p>\n                <p><strong>Referral:</strong> "
    ++ (if ref.has_referral then "Yes" else "No")
    ++ "</p>\n                <p><strong>Referring Physician:</strong> "
    ++ pyOr ref.referring_physician "N/A"
    ++ "</p>\n                <p><strong>Chief Complaint:</strong> "
    ++ complaint
    ++ "</p>\n                <p><strong>Contact:</strong></p>\n                <ul>\n                    <li>Address: "
    ++ addr
    ++ "</li>\n                    <li>Phone: "
    ++ phone
    ++ "</li>\n                    <li>Email: "
    ++ pyOr email "N/A"
    ++ "</li>\n                </ul>\n                <p><strong>Appointment Details:</strong></p>\n                <ul>\n                    <li>Doctor: "
    ++ appt.doctor
    ++ "</li>\n                    <li>Date: "
    ++ appt.date
    ++ "</li>\n                    <li>Time: "
    ++ appt.time
    ++ "</li>\n                </ul>\n                "

/-- `send_appointment_email`: skip (logged) when the API key is not truthy;
otherwise build the HTML and call the client once, catching any exception
raised while building (`KeyError`) or sending.  Returns the list of send
attempts made (HTML bodies handed to `sg.send`; sender, recipient and
subject are hardcoded in the source) and the logged event.  It never
propagates an exception, which is why its result type is plain. -/
def send_appointment_email (env : Env) (info : PatientInfo) :
    List String × EmailEvent :=
  if envTruthy env.sendgridApiKey then
    match buildEmailHtml info with
    | none => ([], .failedCaught none)
    | some html =>
      if env.sendOk then ([html], .sent html)
      else ([html], .failedCaught (some html))
  else ([], .skippedNoApiKey)

/-- Conversation-side state: the patient record, the set of callables
currently exposed to the language model (`context.set_tools`, identified
by function name), the last system instruction emitted through
`result_callback`, and the cumulative email activity. -/
structure IntakeState where
  info : PatientInfo
  tools : List String
  message : String
  sendAttempts : List String := []
  emailEvents : List EmailEvent := []
deriving DecidableEq, Repr

/-- State set up by `MedicalIntakeProcessor.__init__`: empty record and
`collect_name` as the single registered callable. -/
def initState : IntakeState :=
  { info := {}
    tools := ["collect_name"]
    message := "" }

structure NameArgs where
  first_name : String
  last_name : String
deriving DecidableEq, Repr

structure BirthdayArgs where
  birthday : String
deriving DecidableEq, Repr

structure InsuranceArgs where
  payer_name : String
  payer_id : String
deriving DecidableEq, Repr

/-- Arguments of `collect_referral`: the has-referral flag is read with a
plain lookup (required), the physician with a defaulting get (optional). -/
structure ReferralArgs where
  has_referral : Bool
  referring_physician : Option String
deriving DecidableEq, Repr

structure ComplaintArgs where
  chief_complaint : String
deriving DecidableEq, Repr

structure AddressArgs where
  address : String
deriving DecidableEq, Repr

structure PhoneArgs where
  phone : String
deriving DecidableEq, Repr

/-- Arguments of `collect_email`: the email is read with a defaulting get. -/
structure EmailArgs where
  email : Option String
deriving DecidableEq, Repr

structure AppointmentArgs where
  selected_option : Int
deriving DecidableEq, Repr

/-- Step 1: store first and last name, expose `collect_birthday`. -/
def collect_name (args : NameArgs) (st : IntakeState) : IntakeState :=
  { st with
    info := { st.info with
      first_name := some args.first_name
      last_name := some args.last_name }
    tools := ["collect_birthday"]
    message := "Thank them for providing their name. Now ask for their birthday." }

/-- Step 2: store the birthday, expose `collect_insurance`. -/
def collect_birthday (args : BirthdayArgs) (st : IntakeState) : IntakeState :=
  { st with
    info := { st.info with birthday := some args.birthday }
    tools := ["collect_insurance"]
    message := "Thank them for providing their birthday. Now ask for their insurance information (payer name and ID)." }

/-- Step 3: store the insurance dictionary, expose `collect_referral`. -/
def collect_insurance (args : InsuranceArgs) (st : IntakeState) : IntakeState :=
  { st with
    info := { st.info with
      insurance := some { payer_name := args.payer_name, payer_id := args.payer_id } }
    tools := ["collect_referral"]
    message := "Now ask if they have a referral and to which physician." }

/-- Step 4: store the referral dictionary (`referring_physician` defaults
to N/A when the argument is absent), expose `collect_complaint`; only the
emitted instruction depends on the flag. -/
def collect_referral (args : ReferralArgs) (st : IntakeState) : IntakeState :=
  { st with
    info := { st.info with
      referral := some { has_referral := args.has_referral
                         referring_physician := args.referring_physician.getD "N/A" } }
    tools := ["collect_complaint"]
    message :=
      if args.has_referral then
        "Thank you for providing the referral information. Now, what is your chief medical complaint?"
      else
        "I understand you don\x27t have a referral. That\x27s fine. What is your chief medical complaint?" }

/-- Step 5: store the chief complaint, expose `collect_address`. -/
def collect_complaint (args : ComplaintArgs) (st : IntakeState) : IntakeState :=
  { st with
    info := { st.info with chief_complaint := some args.chief_complaint }
    tools := ["collect_address"]
    message := "Now ask for their address." }

/-- Step 6: re-initialise the contact entry with a defaulting get (an empty
sub-dictionary when absent), then store the address and expose
`collect_phone`; succeeds on any record. -/
def collect_address (args : AddressArgs) (st : IntakeState) : IntakeState :=
  { st with
    info := { st.info with
      contact := some { st.info.contact.getD {} with address := some args.address } }
    tools := ["collect_phone"]
    message := "Thank them for providing their address. Now ask for their phone number." }

/-- Step 7: writing the phone into the contact entry raises a `KeyError`
when the contact key is absent; otherwise store the phone and expose
`collect_email`. -/
def collect_phone (args : PhoneArgs) (st : IntakeState) :
    Except String IntakeState :=
  match st.info.contact with
  | none => .error "KeyError: contact"
  | some c =>
    .ok { st with
      info := { st.info with contact := some { c with phone := some args.phone } }
      tools := ["collect_email"]
      message := "Thank them for providing their phone number. Now ask if they\x27d like to provide their email address (optional)." }

/-- Step 8: writing the email into the contact entry raises a `KeyError`
when the contact key is absent; otherwise store the email (defaulting to
the empty string) and expose `offer_appointments`. -/
def collect_email (args : EmailArgs) (st : IntakeState) :
    Except String IntakeState :=
  match st.info.contact with
  | none => .error "KeyError: contact"
  | some c =>
    .ok { st with
      info := { st.info with contact := some { c with email := some (args.email.getD "") } }
      tools := ["offer_appointments"]
      message := "Offer these two appointment options:\n                1. Dr. John Doe on March 22, 2025 at 4:00 PM\n                2. Dr. John Doe on March 22, 2025 at 4:30 PM\n                \n                Ask which option they prefer." }

/-- Step 9: map the selection to a time slot (`== 1` gives 4:00 PM, any
other value 4:30 PM), store the appointment under the hardcoded doctor and
date, send the summary email once, clear the callable set and emit the
closing instruction. -/
def offer_appointments (env : Env) (args : AppointmentArgs)
    (st : IntakeState) : IntakeState :=
  let appointment_time := if args.selected_option == 1 then "4:00 PM" else "4:30 PM"
  let info := { st.info with
    appointment := some { doctor := "Dr. John Doe"
                          date := "March 22, 2025"
                          time := appointment_time } }
  { st with
    info := info
    sendAttempts := st.sendAttempts ++ (send_appointment_email env info).1
    emailEvents := st.emailEvents ++ [(send_appointment_email env info).2]
    tools := []
    message := "Thank them for their time and confirm their appointment details." }

/-- State after the name step of an in-order run. -/
def afterName (a1 : NameArgs) : IntakeState :=
  collect_name a1 initState

/-- State after the birthday step of an in-order run. -/
def afterBirthday (a1 : NameArgs) (a2 : BirthdayArgs) : IntakeState :=
  collect_birthday a2 (afterName a1)

/-- State after the insurance step of an in-order run. -/
def afterInsurance (a1 : NameArgs) (a2 : BirthdayArgs) (a3 : InsuranceArgs) :
    IntakeState :=
  collect_insurance a3 (afterBirthday a1 a2)

/-- State after the referral step of an in-order run. -/
def afterReferral (a1 : NameArgs) (a2 : BirthdayArgs) (a3 : InsuranceArgs)
    (a4 : ReferralArgs) : IntakeState :=
  collect_referral a4 (afterInsurance a1 a2 a3)

/-- State after the complaint step of an in-order run. -/
def afterComplaint (a1 : NameArgs) (a2 : BirthdayArgs) (a3 : InsuranceArgs)
    (a4 : ReferralArgs) (a5 : ComplaintArgs) : IntakeState :=
  collect_complaint a5 (afterReferral a1 a2 a3 a4)

/-- State after the address step of an in-order run. -/
def afterAddress (a1 : NameArgs) (a2 : BirthdayArgs) (a3 : InsuranceArgs)
    (a4 : ReferralArgs) (a5 : ComplaintArgs) (a6 : AddressArgs) : IntakeState :=
  collect_address a6 (afterComplaint a1 a2 a3 a4 a5)

/-- State after the phone step of an in-order run. -/
def afterPhone (a1 : NameArgs) (a2 : BirthdayArgs) (a3 : InsuranceArgs)
    (a4 : ReferralArgs) (a5 : ComplaintArgs) (a6 : AddressArgs)
    (a7 : PhoneArgs) : Except String IntakeState :=
  collect_phone a7 (afterAddress a1 a2 a3 a4 a5 a6)

/-- State after the email step of an in-order run. -/
def afterEmail (a1 : NameArgs) (a2 : BirthdayArgs) (a3 : InsuranceArgs)
    (a4 : ReferralArgs) (a5 : ComplaintArgs) (a6 : AddressArgs)
    (a7 : PhoneArgs) (a8 : EmailArgs) : Except String IntakeState :=
  (afterPhone a1 a2 a3 a4 a5 a6 a7).bind (collect_email a8)

/-- A full in-order run of the nine intake steps. -/
def runIntake (env : Env) (a1 : NameArgs) (a2 : BirthdayArgs)
    (a3 : InsuranceArgs) (a4 : ReferralArgs) (a5 : ComplaintArgs)
    (a6 : AddressArgs) (a7 : PhoneArgs) (a8 : EmailArgs)
    (a9 : AppointmentArgs) : Except String IntakeState :=
  (afterEmail a1 a2 a3 a4 a5 a6 a7 a8).map (offer_appointments env a9)

/-- `a` occurs as a contiguous substring of `b`. -/
def strSub (a b : String) : Prop := ∃ p q, p ++ a ++ q = b

theorem strSub_self (a : String) : strSub a a :=
  ⟨"", "", by simp⟩

theorem strSub_appendL {a b : String} (c : String) (h : strSub a b) :
    strSub a (b ++ c) := by
  obtain ⟨p, q, hpq⟩ := h
  exact ⟨p, q ++ c, by rw [← hpq]; simp [String.append_assoc]⟩

theorem strSub_appendR {a c : String} (b : String) (h : strSub a c) :
    strSub a (b ++ c) := by
  obtain ⟨p, q, hpq⟩ := h
  exact ⟨b ++ p, q, by rw [← hpq]; simp [String.append_assoc]⟩

/-- The environment-variable names checked before the bridge starts
(`REQUIRED_ENV_VARS` in `bot_runner.py`). -/
def REQUIRED_ENV_VARS : List String :=
  ["OPENAI_API_KEY",
   "DAILY_API_KEY",
   "ELEVENLABS_API_KEY",
   "ELEVENLABS_VOICE_ID",
   "TWILIO_ACCOUNT_SID",
   "TWILIO_AUTH_TOKEN"]

/-- The `__main__` loop of `bot_runner.py`: raise on the first name of
`REQUIRED_ENV_VARS` that is not a key of `os.environ` (here the list of
set variable names), otherwise start the server. -/
def startupCheck (environ : List String) : Except String Unit :=
  match REQUIRED_ENV_VARS.find? (fun v => !(environ.contains v)) with
  | some v => .error ("Missing environment variable: " ++ v)
  | none => .ok ()

/-- Summary of the external effects reachable from `/twilio_start_bot`:
whether room-and-token provisioning yields truthy values, the provisioned
values, whether `subprocess.Popen` succeeds, and whether the child process
has exited when it is polled after the one-second startup wait. -/
structure BridgeEnv where
  provisionOk : Bool
  roomUrl : String
  token : String
  sipEndpoint : String
  spawnOk : Bool
  exitedWithinWindow : Bool
deriving DecidableEq, Repr

/-- Response of the endpoint: an HTTP error status with detail (a raised
`HTTPException`, which the outer handler re-raises) or a TwiML body. -/
inductive TwilioResult
  | httpError (status : Nat) (detail : String)
  | twiml (body : String)
deriving DecidableEq, Repr

/-- Serialisation of the `VoiceResponse` built at the end of the endpoint:
hold music played in a loop of 10. -/
def holdMusicTwiml : String :=
  "<?xml version=\"1.0\" encoding=\"UTF-8\"?><Response><Play loop=\"10\">http://com.twilio.sounds.music.s3.amazonaws.com/MARKOVICHAMP-Borghestral.mp3</Play></Response>"

/-- `dict(form_data).get(key)` on the form payload. -/
def lookupForm (form : List (String × String)) (key : String) :
    Option String :=
  (form.find? (fun p => p.1 == key)).map Prod.snd

/-- `create_daily_room`: provisions a room and token, raising a 500 when
either comes back falsy. -/
def create_daily_room (env : BridgeEnv) :
    Except (Nat × String) (String × String) :=
  if env.provisionOk then .ok (env.roomUrl, env.token)
  else .error (500, "Failed to create room or get token")

/-- The `/twilio_start_bot` endpoint.  Returns the response together with
the number of `create_daily_room` invocations made.  A missing or empty
CallSid is rejected before any provisioning; a provisioning failure, a
spawn failure, and a child process that has already exited at the
one-second poll each yield a 500; otherwise the caller is put on hold
with looped music. -/
def twilio_start_bot (env : BridgeEnv) (form : List (String × String)) :
    TwilioResult × Nat :=
  match lookupForm form "CallSid" with
  | none => (.httpError 500 "Missing \x27CallSid\x27 in request", 0)
  | some callId =>
    if callId = "" then (.httpError 500 "Missing \x27CallSid\x27 in request", 0)
    else
      match create_daily_room env with
      | .error (s, d) => (.httpError s d, 1)
      | .ok _ =>
        if !env.spawnOk then (.httpError 500 "Failed to start bot", 1)
        else if env.exitedWithinWindow then
          (.httpError 500 "Bot failed to start", 1)
        else (.twiml holdMusicTwiml, 1)

/-- Claim C1: for every sequence of valid step arguments supplied in the
fixed step order, the patient record accumulates exactly the submitted
values, each field is absent (`none`) until its corresponding step
executes, and the set of callables active after step k is exactly the
singleton containing the callable of step k+1, empty after the final
step. -/
theorem claim1_record_and_tools (env : Env) (a1 : NameArgs)
    (a2 : BirthdayArgs) (a3 : InsuranceArgs) (a4 : ReferralArgs)
    (a5 : ComplaintArgs) (a6 : AddressArgs) (a7 : PhoneArgs) (a8 : EmailArgs)
    (a9 : AppointmentArgs) :
    initState.info = {} ∧
    initState.tools = ["collect_name"] ∧
    (afterName a1).info
      = { first_name := some a1.first_name, last_name := some a1.last_name } ∧
    (afterName a1).tools = ["collect_birthday"] ∧
    (afterBirthday a1 a2).info
      = { first_name := some a1.first_name, last_name := some a1.last_name,
          birthday := some a2.birthday } ∧
    (afterBirthday a1 a2).tools = ["collect_insurance"] ∧
    (afterInsurance a1 a2 a3).info
      = { first_name := some a1.first_name, last_name := some a1.last_name,
          birthday := some a2.birthday,
          insurance := some { payer_name := a3.payer_name, payer_id := a3.payer_id } } ∧
    (afterInsurance a1 a2 a3).tools = ["collect_referral"] ∧
    (afterReferral a1 a2 a3 a4).info
      = { first_name := some a1.first_name, last_name := some a1.last_name,
          birthday := some a2.birthday,
          insurance := some { payer_name := a3.payer_name, payer_id := a3.payer_id },
          referral := some { has_referral := a4.has_referral,
                             referring_physician := a4.referring_physician.getD "N/A" } } ∧
    (afterReferral a1 a2 a3 a4).tools = ["collect_complaint"] ∧
    (afterComplaint a1 a2 a3 a4 a5).info
      = { first_name := some a1.first_name, last_name := some a1.last_name,
          birthday := some a2.birthday,
          insurance := some { payer_name := a3.payer_name, payer_id := a3.payer_id },
          referral := some { has_referral := a4.has_referral,
                             referring_physician := a4.referring_physician.getD "N/A" },
          chief_complaint := some a5.chief_complaint } ∧
    (afterComplaint a1 a2 a3 a4 a5).tools = ["collect_address"] ∧
    (afterAddress a1 a2 a3 a4 a5 a6).info
      = { first_name := some a1.first_name, last_name := some a1.last_name,
          birthday := some a2.birthday,
          insurance := some { payer_name := a3.payer_name, payer_id := a3.payer_id },
          referral := some { has_referral := a4.has_referral,
                             referring_physician := a4.referring_physician.getD "N/A" },
          chief_complaint := some a5.chief_complaint,
          contact := some { address := some a6.address } } ∧
    (afterAddress a1 a2 a3 a4 a5 a6).tools = ["collect_phone"] ∧
    (afterPhone a1 a2 a3 a4 a5 a6 a7).map (fun s => (s.info, s.tools))
      = .ok
        ({ first_name := some a1.first_name, last_name := some a1.last_name,
           birthday := some a2.birthday,
           insurance := some { payer_name := a3.payer_name, payer_id := a3.payer_id },
           referral := some { has_referral := a4.has_referral,
                              referring_physician := a4.referring_physician.getD "N/A" },
           chief_complaint := some a5.chief_complaint,
           contact := some { address := some a6.address, phone := some a7.phone } },
         ["collect_email"]) ∧
    (afterEmail a1 a2 a3 a4 a5 a6 a7 a8).map (fun s => (s.info, s.tools))
      = .ok
        ({ first_name := some a1.first_name, last_name := some a1.last_name,
           birthday := some a2.birthday,
           insurance := some { payer_name := a3.payer_name, payer_id := a3.payer_id },
           referral := some { has_referral := a4.has_referral,
                              referring_physician := a4.referring_physician.getD "N/A" },
           chief_complaint := some a5.chief_complaint,
           contact := some { address := some a6.address, phone := some a7.phone,
                             email := some (a8.email.getD "") } },
         ["offer_appointments"]) ∧
    (runIntake env a1 a2 a3 a4 a5 a6 a7 a8 a9).map (fun s => (s.info, s.tools))
      = .ok
        ({ first_name := some a1.first_name, last_name := some a1.last_name,
           birthday := some a2.birthday,
           insurance := some { payer_name := a3.payer_name, payer_id := a3.payer_id },
           referral := some { has_referral := a4.has_referral,
                              referring_physician := a4.referring_physician.getD "N/A" },
           chief_complaint := some a5.chief_complaint,
           contact := some { address := some a6.address, phone := some a7.phone,
                             email := some (a8.email.getD "") },
           appointment := some { doctor := "Dr. John Doe", date := "March 22, 2025",
                                 time := if a9.selected_option == 1
                                         then "4:00 PM" else "4:30 PM" } },
         ([] : List String)) :=
  ⟨rfl, rfl, rfl, rfl, rfl, rfl, rfl, rfl, rfl, rfl, rfl, rfl, rfl, rfl, rfl,
   rfl, rfl⟩

/-- Claim C2, counterexample: an argument set with the has-referral flag
false and a supplied physician stores the supplied physician verbatim, not
the not-applicable marker, so the claim as stated is false. -/
theorem claim2_counterexample :
    (collect_referral { has_referral := false, referring_physician := some "Dr. Smith" }
        initState).info.referral
      = some { has_referral := false, referring_physician := "Dr. Smith" } ∧
    "Dr. Smith" ≠ "N/A" :=
  ⟨rfl, by decide⟩

/-- Claim C2, amended: the stored physician is the supplied value verbatim
whenever the argument is present, independent of the flag, and the
not-applicable marker exactly when the argument is absent; the flag is
stored as given and the next-state transition is the same in all cases. -/
theorem claim2_referral_amended (st : IntakeState) (b : Bool)
    (phys : Option String) (p : String) :
    (collect_referral { has_referral := b, referring_physician := phys } st).info.referral
      = some { has_referral := b, referring_physician := phys.getD "N/A" } ∧
    (collect_referral { has_referral := false, referring_physician := none } st).info.referral
      = some { has_referral := false, referring_physician := "N/A" } ∧
    (collect_referral { has_referral := true, referring_physician := some p } st).info.referral
      = some { has_referral := true, referring_physician := p } ∧
    (collect_referral { has_referral := false, referring_physician := some p } st).info.referral
      = some { has_referral := false, referring_physician := p } ∧
    (collect_referral { has_referral := b, referring_physician := phys } st).tools
      = ["collect_complaint"] :=
  ⟨rfl, rfl, rfl, rfl, rfl⟩

/-- Claim C3: in `offer_appointments`, selection 1 stores the 4:00 PM slot
and selection 2 the 4:30 PM slot, both under the fixed doctor and date. -/
theorem claim3_appointment_slots (env : Env) (st : IntakeState) :
    (offer_appointments env { selected_option := 1 } st).info.appointment
      = some { doctor := "Dr. John Doe", date := "March 22, 2025", time := "4:00 PM" } ∧
    (offer_appointments env { selected_option := 2 } st).info.appointment
      = some { doctor := "Dr. John Doe", date := "March 22, 2025", time := "4:30 PM" } :=
  ⟨rfl, rfl⟩

/-- Claim C4: completing all nine steps always finishes the final step
(the run succeeds, the callable set is cleared and the closing instruction
is emitted) for every email environment, including a failing client; with
the email credential absent there are zero send attempts and only the
logged skip; with the credential present there is exactly one send attempt
whose HTML interpolates every record field. -/
theorem claim4_email_on_completion (env : Env) (a1 : NameArgs)
    (a2 : BirthdayArgs) (a3 : InsuranceArgs) (a4 : ReferralArgs)
    (a5 : ComplaintArgs) (a6 : AddressArgs) (a7 : PhoneArgs) (a8 : EmailArgs)
    (a9 : AppointmentArgs) :
    (∃ st', runIntake env a1 a2 a3 a4 a5 a6 a7 a8 a9 = .ok st') ∧
    (∀ st', runIntake env a1 a2 a3 a4 a5 a6 a7 a8 a9 = .ok st' →
      st'.tools = [] ∧
      st'.message = "Thank them for their time and confirm their appointment details." ∧
      (envTruthy env.sendgridApiKey = false →
        st'.sendAttempts = [] ∧ st'.emailEvents = [.skippedNoApiKey]) ∧
      (envTruthy env.sendgridApiKey = true →
        st'.sendAttempts.length = 1 ∧
        ∀ html ∈ st'.sendAttempts,
          strSub (a1.first_name ++ " " ++ a1.last_name) html ∧
          strSub a2.birthday html ∧
          strSub a3.payer_name html ∧
          strSub a3.payer_id html ∧
          (a4.has_referral = true → strSub "Yes" html) ∧
          (a4.has_referral = false → strSub "No" html) ∧
          strSub (pyOr (a4.referring_physician.getD "N/A") "N/A") html ∧
          strSub a5.chief_complaint html ∧
          strSub a6.address html ∧
          strSub a7.phone html ∧
          strSub (pyOr (a8.email.getD "") "N/A") html ∧
          strSub "Dr. John Doe" html ∧
          strSub "March 22, 2025" html ∧
          (a9.selected_option = 1 → strSub "4:00 PM" html) ∧
          (a9.selected_option ≠ 1 → strSub "4:30 PM" html))) := by
  refine ⟨⟨_, rfl⟩, ?_⟩
  intro st' hok
  rcases hk : envTruthy env.sendgridApiKey
  · simp [runIntake, afterEmail, afterPhone, afterAddress, afterComplaint,
      afterReferral, afterInsurance, afterBirthday, afterName, initState,
      collect_name, collect_birthday, collect_insurance, collect_referral,
      collect_complaint, collect_address, collect_phone, collect_email,
      offer_appointments, send_appointment_email, Except.bind, Except.map,
      hk] at hok
    subst hok
    refine ⟨by simp, by simp, fun _ => ⟨by simp, by simp⟩,
      fun hkk => absurd hkk (by simp [hk])⟩
  · cases h9 : a9.selected_option == 1 <;> cases hr : a4.has_referral <;>
      cases hs : env.sendOk <;>
    · simp [runIntake, afterEmail, afterPhone, afterAddress, afterComplaint,
        afterReferral, afterInsurance, afterBirthday, afterName, initState,
        collect_name, collect_birthday, collect_insurance, collect_referral,
        collect_complaint, collect_address, collect_phone, collect_email,
        offer_appointments, send_appointment_email, buildEmailHtml,
        Except.bind, Except.map, hk, hs, h9, hr] at hok
      subst hok
      refine ⟨by simp, by simp, fun hff => absurd hff (by simp [hk]),
        fun _ => ⟨by simp, ?_⟩⟩
      intro html hmem
      simp at hmem
      subst hmem
      refine ⟨?_, ?_, ?_, ?_, ?_, ?_, ?_, ?_, ?_, ?_, ?_, ?_, ?_, ?_, ?_⟩
      all_goals try intro hI
      all_goals try exact absurd hI (by simpa using h9)
      all_goals repeat first
        | exact strSub_appendR _ (strSub_self _)
        | apply strSub_appendL

/-- Claim C4, witness: a concrete complete run with the credential set
succeeds, clears the callables and makes exactly one send attempt. -/
theorem claim4_witness :
    ∃ st', runIntake { sendgridApiKey := some "SG.key", sendOk := true }
        { first_name := "Ada", last_name := "Lovelace" }
        { birthday := "Jan 1, 1990" }
        { payer_name := "Acme Health", payer_id := "A123" }
        { has_referral := true, referring_physician := some "Dr. Ref" }
        { chief_complaint := "headache" }
        { address := "1 Main St" }
        { phone := "555-0100" }
        { email := some "ada@example.com" }
        { selected_option := 1 } = .ok st' ∧
      st'.tools = [] ∧ st'.sendAttempts.length = 1 := by
  obtain ⟨⟨st', hok⟩, hall⟩ :=
    claim4_email_on_completion { sendgridApiKey := some "SG.key", sendOk := true }
      { first_name := "Ada", last_name := "Lovelace" }
      { birthday := "Jan 1, 1990" }
      { payer_name := "Acme Health", payer_id := "A123" }
      { has_referral := true, referring_physician := some "Dr. Ref" }
      { chief_complaint := "headache" }
      { address := "1 Main St" }
      { phone := "555-0100" }
      { email := some "ada@example.com" }
      { selected_option := 1 }
  exact ⟨st', hok, (hall st' hok).1, ((hall st' hok).2.2.2 (by decide)).1⟩

/-- Claim C5: a webhook request whose form payload has no CallSid field is
rejected with an error response and `create_daily_room` is never
invoked. -/
theorem claim5_missing_callsid (env : BridgeEnv)
    (form : List (String × String)) (h : lookupForm form "CallSid" = none) :
    twilio_start_bot env form
      = (.httpError 500 "Missing \x27CallSid\x27 in request", 0) := by
  simp [twilio_start_bot, h]

/-- Claim C5, witness: the empty form has no CallSid and is rejected with
no room provisioned. -/
theorem claim5_witness :
    twilio_start_bot
        { provisionOk := true, roomUrl := "https://d.daily.co/r", token := "tok",
          sipEndpoint := "sip:x", spawnOk := true, exitedWithinWindow := false } []
      = (.httpError 500 "Missing \x27CallSid\x27 in request", 0) :=
  claim5_missing_callsid _ [] rfl

/-- Claim C6: hold-music markup is returned only when the spawned process
is still running after the startup window, and on the otherwise-successful
path a process that has exited within the window yields an error response
instead. -/
theorem claim6_early_exit (env : BridgeEnv) (form : List (String × String)) :
    ((∃ b, (twilio_start_bot env form).1 = .twiml b) →
      env.exitedWithinWindow = false) ∧
    (∀ callId, lookupForm form "CallSid" = some callId → callId ≠ "" →
      env.provisionOk = true → env.spawnOk = true →
      env.exitedWithinWindow = true →
      twilio_start_bot env form = (.httpError 500 "Bot failed to start", 1)) := by
  constructor
  · rintro ⟨b, hb⟩
    by_contra hx
    rw [Bool.not_eq_false] at hx
    rcases hl : lookupForm form "CallSid" with _ | callId
    · simp [twilio_start_bot, hl] at hb
    · by_cases hc : callId = "" <;>
        by_cases hp : env.provisionOk <;>
          by_cases hs2 : env.spawnOk <;>
            simp [twilio_start_bot, create_daily_room, hl, hc, hp, hs2, hx] at hb
  · intro callId hl hc hp hs hx
    simp [twilio_start_bot, create_daily_room, hl, hc, hp, hs, hx]

/-- Claim C6, witness: a valid webhook whose child process exits within
the window gets the failure response, not hold music. -/
theorem claim6_witness :
    twilio_start_bot
        { provisionOk := true, roomUrl := "https://d.daily.co/r", token := "tok",
          sipEndpoint := "sip:x", spawnOk := true, exitedWithinWindow := true }
        [("CallSid", "CA123")]
      = (.httpError 500 "Bot failed to start", 1) :=
  (claim6_early_exit _ _).2 "CA123" rfl (by decide) rfl rfl rfl

/-- Claim C7, counterexample: the startup check passes on an environment
containing exactly the six required variables, which do not include the
email credential SENDGRID_API_KEY, so a process with no email credential
starts; the claim that the email provider credential is checked at startup
is false. -/
theorem claim7_counterexample :
    startupCheck REQUIRED_ENV_VARS = .ok () ∧
    "SENDGRID_API_KEY" ∉ REQUIRED_ENV_VARS :=
  ⟨rfl, by decide⟩

/-- Claim C7, amended: the startup check passes exactly when the
language-model, audio-room, speech-service and telephony variables are all
present, and refuses to start otherwise; the email credential is not among
the checked variables. -/
theorem claim7_startup_check_amended (environ : List String) :
    (startupCheck environ = .ok () ↔
      ∀ v ∈ REQUIRED_ENV_VARS, environ.contains v = true) ∧
    REQUIRED_ENV_VARS
      = ["OPENAI_API_KEY", "DAILY_API_KEY", "ELEVENLABS_API_KEY",
         "ELEVENLABS_VOICE_ID", "TWILIO_ACCOUNT_SID", "TWILIO_AUTH_TOKEN"] := by
  refine ⟨?_, rfl⟩
  unfold startupCheck
  rcases h : REQUIRED_ENV_VARS.find? (fun v => !(environ.contains v)) with _ | v
  · simp only [List.find?_eq_none] at h
    simpa using h
  · have := List.find?_some h
    have hmem := List.mem_of_find?_eq_some h
    simp only [Bool.not_eq_true'] at this
    constructor
    · intro hc; cases hc
    · intro hall
      have hc := hall v hmem
      rw [this] at hc
      exact absurd hc Bool.false_ne_true

/-- Claim C7, witness: an environment with exactly the six checked
variables passes the startup check. -/
theorem claim7_witness :
    startupCheck
        ["OPENAI_API_KEY", "DAILY_API_KEY", "ELEVENLABS_API_KEY",
         "ELEVENLABS_VOICE_ID", "TWILIO_ACCOUNT_SID", "TWILIO_AUTH_TOKEN"]
      = .ok () :=
  ((claim7_startup_check_amended
      ["OPENAI_API_KEY", "DAILY_API_KEY", "ELEVENLABS_API_KEY",
       "ELEVENLABS_VOICE_ID", "TWILIO_ACCOUNT_SID", "TWILIO_AUTH_TOKEN"]).1).mpr
    (by decide)

/-- Claim C8: every selection value other than 1 is handled exactly like
selection 2 — the whole step result is identical, storing the 4:30 PM slot
under the fixed doctor and date and clearing the callable set; no
selection value is rejected. -/
theorem claim8_nondefault_selection (env : Env) (st : IntakeState) (n : Int)
    (h : n ≠ 1) :
    offer_appointments env { selected_option := n } st
      = offer_appointments env { selected_option := 2 } st ∧
    (offer_appointments env { selected_option := n } st).info.appointment
      = some { doctor := "Dr. John Doe", date := "March 22, 2025", time := "4:30 PM" } ∧
    (offer_appointments env { selected_option := n } st).tools = [] := by
  have hb : (n == 1) = false := by simpa using h
  refine ⟨?_, ?_, rfl⟩
  · simp [offer_appointments, hb]
  · simp [offer_appointments, hb]

/-- Claim C8, witness: selection 0 behaves exactly like selection 2. -/
theorem claim8_witness :
    offer_appointments { sendgridApiKey := none, sendOk := true }
        { selected_option := 0 } initState
      = offer_appointments { sendgridApiKey := none, sendOk := true }
        { selected_option := 2 } initState :=
  (claim8_nondefault_selection { sendgridApiKey := none, sendOk := true }
    initState 0 (by decide)).1

/-- Claim C9: `send_appointment_email` never propagates an exception: it
makes at most one send attempt, returns the logged-skip outcome when the
credential is not truthy, returns the caught-error outcome with no attempt
when a record key is missing while the HTML is built, returns the
caught-error outcome after the single attempt when the client fails, and
in all cases `offer_appointments` still returns normally with the record
changed only in its appointment field. -/
theorem claim9_email_never_raises (env : Env) (info : PatientInfo)
    (a : AppointmentArgs) (st : IntakeState) :
    (send_appointment_email env info).1.length ≤ 1 ∧
    (envTruthy env.sendgridApiKey = false →
      send_appointment_email env info = ([], .skippedNoApiKey)) ∧
    (envTruthy env.sendgridApiKey = true → buildEmailHtml info = none →
      send_appointment_email env info = ([], .failedCaught none)) ∧
    (∀ html, envTruthy env.sendgridApiKey = true →
      buildEmailHtml info = some html → env.sendOk = false →
      send_appointment_email env info = ([html], .failedCaught (some html))) ∧
    (offer_appointments env a st).info
      = { st.info with
          appointment := some { doctor := "Dr. John Doe", date := "March 22, 2025",
                                time := if a.selected_option == 1
                                        then "4:00 PM" else "4:30 PM" } } ∧
    (offer_appointments env a st).message
      = "Thank them for their time and confirm their appointment details." := by
  refine ⟨?_, ?_, ?_, ?_, rfl, rfl⟩
  · by_cases hk : envTruthy env.sendgridApiKey
    · rcases hb : buildEmailHtml info with _ | html
      · simp [send_appointment_email, hk, hb]
      · cases hs : env.sendOk <;> simp [send_appointment_email, hk, hb, hs]
    · simp [send_appointment_email, hk]
  · intro hk
    simp [send_appointment_email, hk]
  · intro hk hb
    simp [send_appointment_email, hk, hb]
  · intro html hk hb hs
    simp [send_appointment_email, hk, hb, hs]

/-- Claim C9, witness: with the credential unset the send is skipped, and
with it set but an incomplete record the key error is caught with zero
attempts; both return normally. -/
theorem claim9_witness :
    send_appointment_email { sendgridApiKey := none, sendOk := true } {}
      = ([], .skippedNoApiKey) ∧
    send_appointment_email { sendgridApiKey := some "SG.key", sendOk := true } {}
      = ([], .failedCaught none) :=
  ⟨(claim9_email_never_raises { sendgridApiKey := none, sendOk := true } {}
      { selected_option := 1 } initState).2.1 rfl,
   (claim9_email_never_raises { sendgridApiKey := some "SG.key", sendOk := true } {}
      { selected_option := 1 } initState).2.2.1 (by decide) rfl⟩

/-- Claim C10: `collect_phone` requires the contact entry: on a record with
no contact entry it raises the key error and stores nothing, while
`collect_address` initialises the contact entry from a defaulting get and
therefore succeeds on any record, storing the address and exposing
`collect_phone`. -/
theorem claim10_phone_requires_address (st : IntakeState) (pa : PhoneArgs)
    (aa : AddressArgs) (h : st.info.contact = none) :
    collect_phone pa st = .error "KeyError: contact" ∧
    (collect_address aa st).info.contact
      = some { st.info.contact.getD {} with address := some aa.address } ∧
    (collect_address aa st).tools = ["collect_phone"] := by
  refine ⟨?_, rfl, rfl⟩
  simp [collect_phone, h]

/-- Claim C10, witness: on the initial record (no contact entry) the phone
step raises the key error. -/
theorem claim10_witness :
    collect_phone { phone := "555-0100" } initState = .error "KeyError: contact" :=
  (claim10_phone_requires_address initState { phone := "555-0100" }
    { address := "1 Main St" } rfl).1
